import Mathlib

/-!
Verification of the lifecycle-loader core (mkrause/lifecycle-loader).

The development shallowly embeds the repository's three source files:

* `src/unnamed/part_001` — `LoadError` and `LoadablePromise` (the completion
  protocol), embedded in the `Promise` section below together with the
  relevant ECMA-262 `Promise` constructor semantics (an abrupt completion of
  the executor is caught and rejects the promise).
* `src/src/util/ProxyWrapper.ts` — the transparent-delegation substrate,
  embedded in the `Wrapper` section over a small model of JavaScript values,
  together with the ECMA-262 proxy-trap behavior its handler methods are
  observed through (Object.setPrototypeOf, Object.isExtensible and its
  invariant check, ToPrimitive / OrdinaryToPrimitive for coercions).
* The `Loadable` interface module (status model, `LoadableRecord`,
  `LoadableProxy`, and the transition operations `update` / `asLoading` /
  `asReady` / `asFailed`) is not present under `src/`; only its unit tests
  are.  Definitions for that module are modelled from the spec (sections
  3, 4.3, 4.4, 4.6) and are marked `Modelled from the spec:` in their doc
  comments; they are kept consistent with the behavior pinned down by the
  unit tests in `src/unnamed/part_000`.
-/

/-! ## Status model and Loadable capability (spec sections 3, 4.6) -/

/-- Error values that can sit in a `Status.error` slot or be passed as the
`reason` of a failure: either a JavaScript `Error` object (carrying a
message) or some other non-`Error` value (opaque tag).  `null` is
represented by `Option.none` at each use site. -/
inductive ErrV where
  | errObj (msg : String)
  | rawTag (n : Nat)
deriving DecidableEq, Repr

/-- The three-flag status record of spec section 3: `ready`, `loading`, and
`error : Error | null` (modelled as `Option ErrV`). -/
structure StatusJ where
  ready : Bool
  loading : Bool
  error : Option ErrV
deriving DecidableEq, Repr

/-- The default status `{ready: false, loading: false, error: null}`. -/
def defaultStatusJ : StatusJ := ⟨false, false, none⟩

/-- The two concrete representations of the Loadable capability
(spec section 3): the plain record and the delegation-wrapper proxy. -/
inductive LRepr where
  | record
  | proxy
deriving DecidableEq, Repr

/-- A Loadable value: an item (`T | undefined`, modelled as `Option τ`), a
status, and a representation tag.  The rebuild access point is modelled by
`LoadableR.rebuild` below, which constructs a new instance of the same
representation (the spec's representation-identity invariant). -/
structure LoadableR (τ : Type) where
  repr : LRepr
  item : Option τ
  status : StatusJ
deriving DecidableEq, Repr

/-- Modelled from the spec: the rebuild access point of the Loadable
capability (spec section 3) — `(item, status) -> Loadable` producing a new
instance of the same representation as the receiver, never mutating it.
The `Loadable` interface module itself is not under `src/`. -/
def LoadableR.rebuild (l : LoadableR τ) (i : Option τ) (s : StatusJ) : LoadableR τ :=
  ⟨l.repr, i, s⟩

/-- A thrown `TypeError`, carrying its message. -/
structure TypeErrorE where
  msg : String
deriving DecidableEq, Repr

/-- Message of the `TypeError` raised by `markReady` when no final item can
be determined. -/
def markReadyMsg : String := "Expected an item to mark ready"

/-- Modelled from the spec: `markReady(loadable, newItem?)` (spec section
4.6; the transitions module is not under `src/`).  Computes
`finalItem = newItem !== undefined ? newItem : currentItem`; fails with a
`TypeError` when `finalItem` is `undefined`; otherwise returns
`rebuild(finalItem, {ready: true, loading: false, error: null})`.
Behavior agrees with the `asReady` unit tests in `src/unnamed/part_000`
(lines 251-287). -/
def markReady (l : LoadableR τ) (newItem : Option τ) : Except TypeErrorE (LoadableR τ) :=
  let finalItem := if newItem.isSome then newItem else l.item
  match finalItem with
  | none => .error ⟨markReadyMsg⟩
  | some x => .ok (l.rebuild (some x) ⟨true, false, none⟩)

/-- Modelled from the spec: `markLoading(loadable)` (spec section 4.6) —
returns `rebuild(currentItem, {ready: currentItem !== undefined,
loading: true, error: null})`.  Behavior agrees with the `asLoading` unit
test in `src/unnamed/part_000` (lines 233-249). -/
def markLoading (l : LoadableR τ) : LoadableR τ :=
  l.rebuild l.item ⟨l.item.isSome, true, none⟩

/-- Modelled from the spec: `markFailed(loadable, reason)` (spec section
4.6) — returns `rebuild(currentItem, {ready: currentItem !== undefined,
loading: false, error: reason})`.  Behavior agrees with the `asFailed` unit
test in `src/unnamed/part_000` (lines 289-306). -/
def markFailed (l : LoadableR τ) (reason : ErrV) : LoadableR τ :=
  l.rebuild l.item ⟨l.item.isSome, false, some reason⟩

/-! ## LoadError and the completion protocol (src/unnamed/part_001)

The `LoadablePromise` class extends the native `Promise`.  The embedding
models a promise by its settlement state plus the class's own `fulfilled`
flag, and models an executor as the finite list of calls it makes to the
wrapped `resolve` / `reject` functions (plus possibly a throw of its own).
The surrounding ECMA-262 `Promise` constructor semantics is part of the
embedding: the constructor calls the executor synchronously and catches an
abrupt completion, turning it into a rejection of the promise (it does not
rethrow at the construction site). -/

/-- Message of the `TypeError` thrown by the loading check in the
`LoadablePromise` constructor (part_001 line 67). -/
def expectedLoadingMsg : String := "Expected item with status loading"

/-- Message of the `TypeError` thrown by the resolve wrapper
(part_001 line 73). -/
def expectedReadyMsg : String := "Expected item with status ready"

/-- Message of the `TypeError` thrown by the reject wrapper
(part_001 line 81). -/
def expectedFailedMsg : String := "Expected item with status failed"

/-- The `LoadError` class (part_001 lines 18-30): an `Error` that keeps a
reference to the (failed) Loadable item, with a message derived from the
underlying cause. -/
structure LoadErrorV (τ : Type) where
  message : String
  item : LoadableR τ
deriving DecidableEq, Repr

/-- Message computation of the `LoadError` constructor (part_001 lines
22-27): when the reason is an `Error`, its message is interpolated;
otherwise the interpolated message part stays empty. -/
def loadErrorMessage : ErrV → String
  | .errObj m => "Loading failed: " ++ m
  | .rawTag _ => "Loading failed: "

/-- Construction of a `LoadError` from a reason and the terminal item
(part_001 line 85 calls `new LoadError(item[statusKey].error, item)`). -/
def mkLoadError (reason : ErrV) (it : LoadableR τ) : LoadErrorV τ :=
  ⟨loadErrorMessage reason, it⟩

/-- An exception propagating out of executor code: either a thrown
`TypeError` (from one of the validation checks) or a value thrown by the
user-supplied executor itself. -/
inductive ThrownE where
  | typeErr (msg : String)
  | userE (e : ErrV)
deriving DecidableEq, Repr

/-- A rejection reason a consumer can observe on the promise: either a
`LoadError` produced through the protocol's reject channel, or a raw
thrown value (captured by the `Promise` constructor when the executor
completed abruptly). -/
inductive RejectReason (τ : Type) where
  | loadErr (e : LoadErrorV τ)
  | thrown (t : ThrownE)
deriving DecidableEq, Repr

/-- Settlement state of a promise. -/
inductive PState (τ : Type) where
  | pending
  | fulfilled (it : LoadableR τ)
  | rejected (r : RejectReason τ)
deriving DecidableEq, Repr

/-- The mutable core of a `LoadablePromise`: the promise's settlement state
together with the class's private `fulfilled` flag (part_001 line 56). -/
structure PCore (τ : Type) where
  st : PState τ
  fl : Bool
deriving DecidableEq, Repr

/-- The native resolving function: settles a pending promise as fulfilled
and is a no-op on an already settled one (ECMA-262 already-resolved
guard). -/
def rawResolve : PState τ → LoadableR τ → PState τ
  | .pending, it => .fulfilled it
  | s, _ => s

/-- The native rejecting function: settles a pending promise as rejected
and is a no-op on an already settled one. -/
def rawReject : PState τ → RejectReason τ → PState τ
  | .pending, r => .rejected r
  | s, _ => s

/-- The wrapped resolve handed to the user executor (part_001 lines 71-78):
validates that the supplied terminal item has `status.ready`, throwing a
`TypeError` otherwise; on success sets the `fulfilled` flag and calls the
native resolve. -/
def resolveWrapped (c : PCore τ) (it : LoadableR τ) : Except ThrownE (PCore τ) :=
  if it.status.ready = false then .error (.typeErr expectedReadyMsg)
  else .ok ⟨rawResolve c.st it, true⟩

/-- The wrapped reject handed to the user executor (part_001 lines 79-86):
validates that the supplied terminal item has a truthy `status.error`,
throwing a `TypeError` otherwise; on success sets the `fulfilled` flag and
rejects with a `LoadError` carrying the terminal item. -/
def rejectWrapped (c : PCore τ) (it : LoadableR τ) : Except ThrownE (PCore τ) :=
  match it.status.error with
  | none => .error (.typeErr expectedFailedMsg)
  | some reason => .ok ⟨rawReject c.st (.loadErr (mkLoadError reason it)), true⟩

/-- One observable action of an executor: a call to the wrapped resolve, a
call to the wrapped reject, or a throw of the executor's own. -/
inductive ExecAct (τ : Type) where
  | callResolve (it : LoadableR τ)
  | callReject (it : LoadableR τ)
  | throwE (e : ErrV)
deriving DecidableEq, Repr

/-- Effect of a single executor action on the promise core; `Except.error`
means an exception propagates out of the action (the wrappers validate
before mutating, so the core is unchanged in that case). -/
def stepAct : ExecAct τ → PCore τ → Except ThrownE (PCore τ)
  | .callResolve it, c => resolveWrapped c it
  | .callReject it, c => rejectWrapped c it
  | .throwE e, _ => .error (.userE e)

/-- Runs the executor's synchronous actions in order.  An exception aborts
the remaining actions and is reported alongside the core reached so far
(state changes made before the throw persist). -/
def runActs : List (ExecAct τ) → PCore τ → PCore τ × Option ThrownE
  | [], c => (c, none)
  | a :: rest, c =>
    match stepAct a c with
    | .ok c' => runActs rest c'
    | .error e => (c, e)

/-- A constructed `LoadablePromise`: its core plus the public `item`
reference to the originating loading item (part_001 lines 57, 90). -/
structure LPromise (τ : Type) where
  core : PCore τ
  item : LoadableR τ
deriving DecidableEq, Repr

/-- The `LoadablePromise` constructor (part_001 lines 59-91) together with
the ECMA-262 `Promise` constructor semantics it runs under.  The wrapped
executor first checks that the given item's status has `loading` set,
throwing a `TypeError` before the user executor runs otherwise; then it
runs the user executor's synchronous actions.  Per ECMA-262 (Promise
( executor ), step 10) an abrupt completion of the executor is caught and
passed to the native reject — it does not propagate to the construction
site, which is why the result type's error channel is never used: the
constructor always returns a promise object, and `this.item = item` always
runs. -/
def constructLP (acts : List (ExecAct τ)) (item : LoadableR τ) : Except ThrownE (LPromise τ) :=
  if item.status.loading = false then
    .ok ⟨⟨.rejected (.thrown (.typeErr expectedLoadingMsg)), false⟩, item⟩
  else
    match runActs acts ⟨.pending, false⟩ with
    | (c, none) => .ok ⟨c, item⟩
    | (c, some e) => .ok ⟨⟨rawReject c.st (.thrown e), c.fl⟩, item⟩

/-- Runs executor actions that happen after construction (the asynchronous
completion of the underlying operation).  An exception thrown there
propagates to the host job queue and has no effect on the promise; it
aborts the remaining modelled actions. -/
def runAsyncActs : List (ExecAct τ) → PCore τ → PCore τ
  | [], c => c
  | a :: rest, c =>
    match stepAct a c with
    | .ok c' => runAsyncActs rest c'
    | .error _ => c

/-- The terminal notification `subscribe` delivers once the promise
settles, via `this.then(itemReady => subscriber(itemReady), reason =>
subscriber(reason.item))` (part_001 lines 105-108).  A fulfillment
delivers the resolved item; a `LoadError` rejection delivers the item
recovered from it; a rejection whose reason is a raw thrown value
delivers `undefined` (accessing `.item` on a non-`LoadError` reason),
modelled as `none`. -/
def termNotif : PState τ → List (Option (LoadableR τ))
  | .pending => []
  | .fulfilled it => [some it]
  | .rejected (.loadErr e) => [some e.item]
  | .rejected (.thrown _) => [none]

/-- The full sequence of subscriber invocations produced by
`subscribe(subscriber)` (part_001 lines 99-111) when called right after
construction, with `asyncActs` the actions the executor performs later:
a synchronous call with the original loading item when the `fulfilled`
flag is not yet set, followed by the terminal notification once the
promise settles.  List order is delivery order, so the loading-phase
notification (when present) precedes the terminal one. -/
def subscribeCalls (p : LPromise τ) (asyncActs : List (ExecAct τ)) :
    List (Option (LoadableR τ)) :=
  (if p.core.fl = false then [some p.item] else []) ++
    termNotif (runAsyncActs asyncActs p.core).st

/-- Return value of `subscribe`: the protocol object itself
(part_001 line 110, `return this`). -/
def subscribeReturn (p : LPromise τ) : LPromise τ := p

/-! ### Species and continuation chaining (part_001 lines 44-54) -/

/-- Promise classes in play: the base `Promise` class and the
`LoadablePromise` subclass. -/
inductive PromiseClass where
  | base
  | loadable
deriving DecidableEq, Repr

/-- The species of each class.  `LoadablePromise` sets its static
`[Symbol.species]` to the base `Promise` (part_001 line 47), so derived
promises are created by the base constructor. -/
def speciesOf : PromiseClass → PromiseClass
  | .base => .base
  | .loadable => .base

/-- A promise object as seen through class-dependent surface: its class,
settlement state, and own `item` property (only the `LoadablePromise`
constructor ever defines one). -/
structure GenPromise (τ : Type) where
  cls : PromiseClass
  state : PState τ
  itemProp : Option (LoadableR τ)
deriving DecidableEq, Repr

/-- Whether `subscribe` is reachable on a promise object: the method lives
on `LoadablePromise.prototype` only. -/
def hasSubscribeMethod (p : GenPromise τ) : Bool :=
  match p.cls with
  | .loadable => true
  | .base => false

/-- Construction of a derived promise by the species constructor.  The base
`Promise` constructor defines no `item` property.  (The `loadable` branch
is unreachable through `thenDerived` since `speciesOf` never yields it;
the code comment at part_001 lines 45-46 notes that constructing a
`LoadablePromise` this way would fail for lack of the item argument.) -/
def speciesConstruct (c : PromiseClass) (st : PState τ) : GenPromise τ :=
  ⟨c, st, none⟩

/-- A promise derived from `p` by `then` (or `catch`): ECMA-262 `then` uses
`SpeciesConstructor(this.constructor)` to create the result promise. -/
def thenDerived (p : GenPromise τ) (st : PState τ) : GenPromise τ :=
  speciesConstruct (speciesOf p.cls) st

/-! ## The delegation substrate (src/src/util/ProxyWrapper.ts)

The wrapper is a `Proxy` over the target `{ body, extension }` with the
handler methods of lines 27-156.  The embedding models JavaScript values
as far as the wrapper's behavior needs: primitives, plain objects (own
properties only; `Object.prototype` members are not modelled since no
observed behavior depends on them), boxed strings and numbers, `Date` and
`RegExp` instances, `Error` objects, and functions (the built-in prototype
methods the claims exercise, their bound forms, and opaque function
values). -/

/-- Property keys: string keys plus the distinct symbols in play — the
module's own `proxyKey` (line 22), the node inspection symbol (line 25),
`Symbol.toPrimitive`, and the reserved Loadable access-point symbols
`itemKey` / `statusKey` / `constructKey` used by `LoadableProxy`. -/
inductive PropKey where
  | s (name : String)
  | proxyKey
  | nodeInspect
  | toPrimitive
  | itemKey
  | statusKey
  | constructKey
deriving DecidableEq, Repr

/-- The built-in prototype methods the wrapper's behavior is observed
through, plus the inspection closure `() => body` of line 95. -/
inductive Meth where
  | strToString
  | strValueOf
  | numToString
  | numValueOf
  | dateGetFullYear
  | inspect
deriving DecidableEq, Repr

/-- JavaScript values, as far as the wrapper needs them. -/
inductive JSVal where
  | undefV
  | nullV
  | boolV (b : Bool)
  | numV (n : Int)
  | strV (s : String)
  | symV (k : PropKey)
  | plainObj (props : List (PropKey × JSVal))
  | boxedStr (s : String)
  | boxedNum (n : Int)
  | dateV (year month day : Int)
  | regexpV
  | errV (msg : String)
  | methodV (m : Meth)
  | boundV (m : Meth) (recv : JSVal)
  | fnTag (n : Nat)
  | boundFn (n : Nat) (recv : JSVal)

/-- An extension object: a record of own properties. -/
abbrev ExtObj := List (PropKey × JSVal)

/-- First-match association lookup (JS own-property lookup on a record). -/
def assocLookup : List (PropKey × JSVal) → PropKey → Option JSVal
  | [], _ => none
  | (k', v) :: rest, k => if k' = k then some v else assocLookup rest k

/-- Whether `typeof v === 'object' && v !== null` holds (functions have
`typeof` `'function'` and fall outside). -/
def isObjNonNull : JSVal → Bool
  | .plainObj _ => true
  | .boxedStr _ => true
  | .boxedNum _ => true
  | .dateV _ _ _ => true
  | .regexpV => true
  | .errV _ => true
  | _ => false

/-- Whether `typeof v === 'function'` holds. -/
def isFn : JSVal → Bool
  | .methodV _ => true
  | .boundV _ _ => true
  | .fnTag _ => true
  | .boundFn _ _ => true
  | _ => false

/-- The `cannotProxy` test of lines 108-112: the body is a `String`,
`Number`, `Date` or `RegExp` instance, whose methods need `this` bound to
the real target. -/
def cannotProxy : JSVal → Bool
  | .boxedStr _ => true
  | .boxedNum _ => true
  | .dateV _ _ _ => true
  | .regexpV => true
  | _ => false

/-- `f.bind(body)` (lines 116): binding an already-bound function keeps its
original receiver, as `Function.prototype.bind` does. -/
def bindTo (v body : JSVal) : JSVal :=
  match v with
  | .methodV m => .boundV m body
  | .boundV m r => .boundV m r
  | .fnTag n => .boundFn n body
  | .boundFn n r => .boundFn n r
  | other => other

/-- The post-processing of a resolved property (lines 102-123): a function
value is bound to the body when the body is one of the `cannotProxy`
classes, returned unbound otherwise; a non-function value is returned
as is. -/
def resolveBind (body v : JSVal) : JSVal :=
  if isFn v then (if cannotProxy body then bindTo v body else v) else v

/-- Own properties of a body object.  A boxed string carries its index
properties and `length` (as `new String(s)` does); plain objects carry
their literal properties; boxed numbers, dates and regexps have no own
properties. -/
def bodyOwnProps : JSVal → List (PropKey × JSVal)
  | .plainObj ps => ps
  | .boxedStr s =>
      (s.data.enum.map (fun ic => (PropKey.s (toString ic.1), JSVal.strV (String.mk [ic.2]))))
        ++ [(.s "length", .numV s.length)]
  | _ => []

/-- Prototype methods reachable on a body (the members of
`String.prototype` / `Number.prototype` / `Date.prototype` that the
observed behavior depends on; `Object.prototype` members are not
modelled). -/
def protoMeths : JSVal → List (PropKey × Meth)
  | .boxedStr _ => [(.s "toString", .strToString), (.s "valueOf", .strValueOf)]
  | .boxedNum _ => [(.s "toString", .numToString), (.s "valueOf", .numValueOf)]
  | .dateV _ _ _ => [(.s "getFullYear", .dateGetFullYear)]
  | _ => []

/-- Lookup in a prototype-method table. -/
def protoLookup : List (PropKey × Meth) → PropKey → Option Meth
  | [], _ => none
  | (k', m) :: rest, k => if k' = k then some m else protoLookup rest k

/-- The `propKey in body` test of line 81: own property or prototype
member. -/
def bodyHasProp (b : JSVal) (k : PropKey) : Bool :=
  (assocLookup (bodyOwnProps b) k).isSome || (protoLookup (protoMeths b) k).isSome

/-- Property read `body[propKey]` of line 82: own property first, then the
prototype method. -/
def bodyGetProp (b : JSVal) (k : PropKey) : JSVal :=
  match assocLookup (bodyOwnProps b) k with
  | some v => v
  | none =>
    match protoLookup (protoMeths b) k with
    | some m => .methodV m
    | none => .undefV

/-- The `get` trap (lines 73-124).  The extension's own properties take
priority; otherwise the body is consulted (own properties and prototype
members); otherwise the fallbacks: the node inspection symbol yields a
`() => body` closure, `proxyKey` yields the `{body, extension}` record
(both returned before the binding step, as the source returns early), and
`toJSON` on a boxed primitive yields the already-bound conversion method.
A function-valued result from the extension or body is bound to the body
exactly when the body is a `cannotProxy` class. -/
def handlerGet (body : JSVal) (ext : ExtObj) (k : PropKey) : JSVal :=
  match assocLookup ext k with
  | some v => resolveBind body v
  | none =>
    if isObjNonNull body && bodyHasProp body k then
      resolveBind body (bodyGetProp body k)
    else if k = .nodeInspect then
      .boundV .inspect body
    else if k = .proxyKey then
      .plainObj [(.s "body", body), (.s "extension", .plainObj ext)]
    else if k = .s "toJSON" then
      match body with
      | .boxedStr s => resolveBind (JSVal.boxedStr s) (.boundV .strToString (.boxedStr s))
      | .boxedNum n => resolveBind (JSVal.boxedNum n) (.boundV .numValueOf (.boxedNum n))
      | _ => .undefV
    else .undefV

/-- The `ownKeys` trap (lines 38-51): only the body's own keys; the
extension's keys are deliberately excluded (the extension-keys inclusion
is commented out in the source). -/
def handlerOwnKeys (body : JSVal) (_ext : ExtObj) : List PropKey :=
  if isObjNonNull body then (bodyOwnProps body).map Prod.fst else []

/-- A property descriptor as far as enumeration and copying need it. -/
structure PropDesc where
  value : JSVal
  enumerable : Bool
  configurable : Bool

/-- Own-property descriptors of a body object.  Literal properties of a
plain object are enumerable and configurable; a boxed string's index
properties are enumerable but not configurable, its `length` is
neither. -/
def bodyGOPD : JSVal → PropKey → Option PropDesc
  | .plainObj ps, k => (assocLookup ps k).map (fun v => ⟨v, true, true⟩)
  | .boxedStr s, k =>
      (assocLookup (bodyOwnProps (.boxedStr s)) k).map
        (fun v => ⟨v, k ≠ .s "length", false⟩)
  | _, _ => none

/-- The `getOwnPropertyDescriptor` trap (lines 126-148): an extension
property is reported with `enumerable: false` (so it is skipped by spread
and copy) and `configurable: true` (required by the proxy invariant for
properties absent from the target); otherwise the body's own descriptor
is reported. -/
def handlerGOPD (body : JSVal) (ext : ExtObj) (k : PropKey) : Option PropDesc :=
  match assocLookup ext k with
  | some v => some ⟨v, false, true⟩
  | none => if isObjNonNull body then bodyGOPD body k else none

/-- Spreading or copying the wrapper (`{ ...wrapper }`), per ECMA-262
CopyDataProperties: list the proxy's own keys, keep those whose descriptor
is enumerable, and read each kept key through the `get` trap. -/
def spreadProxy (body : JSVal) (ext : ExtObj) : List (PropKey × JSVal) :=
  (handlerOwnKeys body ext).filterMap (fun k =>
    match handlerGOPD body ext k with
    | some d => if d.enumerable then some (k, handlerGet body ext k) else none
    | none => none)

/-! ### Mutation traps and the operations observing them (lines 150-156) -/

/-- The `set` trap (line 153): throws a `TypeError` unconditionally. -/
def handlerSet : Except TypeErrorE Bool := .error ⟨"Unable to modify object"⟩

/-- The `defineProperty` trap (line 154): throws a `TypeError`
unconditionally. -/
def handlerDefineProperty : Except TypeErrorE Bool := .error ⟨"Unable to modify object"⟩

/-- The `deleteProperty` trap (line 155): throws a `TypeError`
unconditionally. -/
def handlerDeleteProperty : Except TypeErrorE Bool := .error ⟨"Unable to modify object"⟩

/-- The `setPrototypeOf` trap (line 150): returns `false`. -/
def handlerSetPrototypeOf : Except TypeErrorE Bool := .ok false

/-- The `isExtensible` trap (line 151): returns `false`. -/
def handlerIsExtensible : Except TypeErrorE Bool := .ok false

/-- Extensibility of the proxy target.  The target is the fresh ordinary
object literal `{ body, extension }` of line 198, and nothing makes it
non-extensible, so it is extensible. -/
def proxyTargetExtensible : Bool := true

/-- Property assignment `wrapper.k = v`: the `set` trap runs; its thrown
`TypeError` propagates (a `false` return would also raise a `TypeError`
in strict mode). -/
def assignOnProxy : Except TypeErrorE Unit :=
  match handlerSet with
  | .error e => .error e
  | .ok true => .ok ()
  | .ok false => .error ⟨"Cannot assign to read only property"⟩

/-- `Object.defineProperty(wrapper, ...)`: the trap's thrown `TypeError`
propagates (a `false` return would also raise one). -/
def definePropertyOnProxy : Except TypeErrorE Unit :=
  match handlerDefineProperty with
  | .error e => .error e
  | .ok true => .ok ()
  | .ok false => .error ⟨"Cannot define property"⟩

/-- `delete wrapper.k`: the trap's thrown `TypeError` propagates (a `false`
return would also raise one in strict mode). -/
def deletePropertyOnProxy : Except TypeErrorE Unit :=
  match handlerDeleteProperty with
  | .error e => .error e
  | .ok true => .ok ()
  | .ok false => .error ⟨"Cannot delete property"⟩

/-- `Object.setPrototypeOf(wrapper, proto)`: per ECMA-262, a `false` return
from the `[[SetPrototypeOf]]` internal method makes `Object.setPrototypeOf`
throw a `TypeError`. -/
def setPrototypeOfProxy : Except TypeErrorE Unit :=
  match handlerSetPrototypeOf with
  | .error e => .error e
  | .ok true => .ok ()
  | .ok false => .error ⟨"Cannot set prototype of immutable object"⟩

/-- `Object.isExtensible(wrapper)`: per ECMA-262 (Proxy `[[IsExtensible]]`),
the trap result must equal the target's extensibility, otherwise a
`TypeError` is thrown by the proxy itself. -/
def isExtensibleOnProxy : Except TypeErrorE Bool :=
  match handlerIsExtensible with
  | .error e => .error e
  | .ok b =>
    if b = proxyTargetExtensible then .ok b
    else .error ⟨"proxy must report same extensibility as target"⟩

/-! ### Construction (lines 167-199) -/

/-- A constructed wrapper: the (possibly boxed) body and the extension. -/
structure ProxyObj where
  body : JSVal
  extension : ExtObj

/-- The `ProxyWrapper` constructor (lines 167-199): rejects `undefined`,
booleans and symbols with a `TypeError`; keeps `null`; boxes primitive
strings and numbers; rejects any remaining non-object (`typeof` not
`'object'`, e.g. a function) as being of unknown type; and wraps the
resulting body with the extension. -/
def ProxyWrapper (value : JSVal) (extension : ExtObj) : Except TypeErrorE ProxyObj :=
  match value with
  | .undefV => .error ⟨"Cannot construct proxy, given undefined"⟩
  | .nullV => .ok ⟨.nullV, extension⟩
  | .strV s => .ok ⟨.boxedStr s, extension⟩
  | .numV n => .ok ⟨.boxedNum n, extension⟩
  | .boolV _ => .error ⟨"Cannot construct proxy from boolean"⟩
  | .symV _ => .error ⟨"Cannot construct proxy from symbol"⟩
  | .methodV _ => .error ⟨"Cannot construct proxy, given value of unknown type"⟩
  | .boundV _ _ => .error ⟨"Cannot construct proxy, given value of unknown type"⟩
  | .fnTag _ => .error ⟨"Cannot construct proxy, given value of unknown type"⟩
  | .boundFn _ _ => .error ⟨"Cannot construct proxy, given value of unknown type"⟩
  | .plainObj ps => .ok ⟨.plainObj ps, extension⟩
  | .boxedStr s => .ok ⟨.boxedStr s, extension⟩
  | .boxedNum n => .ok ⟨.boxedNum n, extension⟩
  | .dateV y mo d => .ok ⟨.dateV y mo d, extension⟩
  | .regexpV => .ok ⟨.regexpV, extension⟩
  | .errV m => .ok ⟨.errV m, extension⟩

/-! ## LoadableProxy construction (spec section 4.4; modelled from the spec) -/

/-- A partial status, as accepted by the Loadable constructors: any subset
of the three fields, merged over the defaults. -/
structure StatusPatch where
  ready : Option Bool
  loading : Option Bool
  error : Option (Option ErrV)
deriving DecidableEq, Repr

/-- The empty partial status. -/
def emptyPatch : StatusPatch := ⟨none, none, none⟩

/-- Merging a partial status over a base status (flat merge, spec section
4.3). -/
def patchStatus (base : StatusJ) (p : StatusPatch) : StatusJ :=
  ⟨p.ready.getD base.ready, p.loading.getD base.loading, p.error.getD base.error⟩

/-- A status rendered as the plain JavaScript record
`{ready, loading, error}`. -/
def statusToObj (st : StatusJ) : JSVal :=
  .plainObj
    [(.s "ready", .boolV st.ready),
     (.s "loading", .boolV st.loading),
     (.s "error", match st.error with
                  | none => .nullV
                  | some (.errObj m) => .errV m
                  | some (.rawTag n) => .numV (Int.ofNat n))]

/-- Modelled from the spec: the extension object a `LoadableProxy` carries
(spec section 4.4) — the reserved `itemKey` / `statusKey` / `constructKey`
access points, holding the item, the status record, and the rebuild
function (an opaque function value here). -/
def mkLoadableExt (item : JSVal) (st : StatusJ) : ExtObj :=
  [(.itemKey, item), (.statusKey, statusToObj st), (.constructKey, .fnTag 0)]

/-- Modelled from the spec: the `LoadableProxy` constructor (spec section
4.4; the `Loadable` interface module is not under `src/`).  Status
defaults to `{ready: false, loading: false, error: null}` merged with the
patch.  An `undefined` item is accepted and yields an absent-item Loadable
(the delegation wrapper cannot carry `undefined` as its body, so an empty
plain object stands in); a boolean or symbol item is rejected with a
`TypeError` (as `ProxyWrapper` does); every other item is wrapped by
`ProxyWrapper` with the reserved access points as the extension.
Behavior agrees with the `LoadableProxy` construction tests in
`src/unnamed/part_000` (lines 313-359). -/
def LoadableProxy (item : JSVal) (patch : StatusPatch) : Except TypeErrorE ProxyObj :=
  let st := patchStatus defaultStatusJ patch
  match item with
  | .undefV => .ok ⟨.plainObj [], mkLoadableExt .undefV st⟩
  | other => ProxyWrapper other (mkLoadableExt other st)

/-! ## Primitive coercion through the wrapper (ECMA-262 ToPrimitive)

`String(wrapper)` and `Number(wrapper)` go through ToPrimitive, which
reads `Symbol.toPrimitive` and then the `toString` / `valueOf` methods
through the `get` trap and calls what it finds with the wrapper as
receiver; the trap has already bound methods of boxed bodies to the body
itself. -/

/-- Applying a built-in method to a receiver.  The string / number / date
methods require their internal slot (`[[StringData]]`, `[[NumberData]]`,
`[[DateValue]]`) on the receiver and throw a `TypeError` on any other
receiver — this is exactly why the wrapper binds them to the body. -/
def applyMeth : Meth → JSVal → Except TypeErrorE JSVal
  | .strToString, .boxedStr s => .ok (.strV s)
  | .strValueOf, .boxedStr s => .ok (.strV s)
  | .numToString, .boxedNum n => .ok (.strV (toString n))
  | .numValueOf, .boxedNum n => .ok (.numV n)
  | .dateGetFullYear, .dateV y _ _ => .ok (.numV y)
  | .inspect, recv => .ok recv
  | _, _ => .error ⟨"method requires an internal slot its receiver lacks"⟩

/-- Calling a function value obtained from the wrapper, with the wrapper
itself as receiver.  A bound function ignores the receiver and uses its
stored one; an unbound built-in method called on the wrapper throws,
since the wrapper has no internal slot; opaque functions are outside the
model. -/
def callOnProxy (f : JSVal) : Except TypeErrorE JSVal :=
  match f with
  | .boundV m recv => applyMeth m recv
  | .methodV _ => .error ⟨"method requires an internal slot its receiver lacks"⟩
  | .boundFn _ _ => .error ⟨"opaque function call is outside the model"⟩
  | .fnTag _ => .error ⟨"opaque function call is outside the model"⟩
  | _ => .error ⟨"value is not callable"⟩

/-- Whether a value is a primitive (ToPrimitive stops on these). -/
def isPrimitive : JSVal → Bool
  | .undefV => true
  | .nullV => true
  | .boolV _ => true
  | .numV _ => true
  | .strV _ => true
  | .symV _ => true
  | _ => false

/-- OrdinaryToPrimitive's inner loop: try each method name in order via
the `get` trap; call the first callable one; a primitive result is the
answer, a non-primitive result moves on; no method left is a
`TypeError`. -/
def otpGo (p : ProxyObj) : List String → Except TypeErrorE JSVal
  | [] => .error ⟨"Cannot convert object to primitive value"⟩
  | name :: rest =>
    let f := handlerGet p.body p.extension (.s name)
    if isFn f then
      match callOnProxy f with
      | .error e => .error e
      | .ok v => if isPrimitive v then .ok v else otpGo p rest
    else otpGo p rest

/-- The coercion hint. -/
inductive PrimHint where
  | hintString
  | hintNumber
deriving DecidableEq, Repr

/-- ToPrimitive on the wrapper: consult `Symbol.toPrimitive` through the
`get` trap (none of the modelled bodies or extensions provide one, so the
ordinary path runs), then OrdinaryToPrimitive with the hint's method
order. -/
def toPrimitiveProxy (p : ProxyObj) (hint : PrimHint) : Except TypeErrorE JSVal :=
  let exotic := handlerGet p.body p.extension .toPrimitive
  if isFn exotic then
    match callOnProxy exotic with
    | .error e => .error e
    | .ok v => if isPrimitive v then .ok v else .error ⟨"Symbol.toPrimitive must return a primitive"⟩
  else
    otpGo p (match hint with
             | .hintString => ["toString", "valueOf"]
             | .hintNumber => ["valueOf", "toString"])

/-- ToString of a primitive. -/
def primToString : JSVal → Except TypeErrorE String
  | .strV s => .ok s
  | .numV n => .ok (toString n)
  | .nullV => .ok "null"
  | .undefV => .ok "undefined"
  | .boolV true => .ok "true"
  | .boolV false => .ok "false"
  | .symV _ => .error ⟨"Cannot convert a Symbol value to a string"⟩
  | _ => .error ⟨"not a primitive"⟩

/-- ToNumber of a primitive, as far as the claims need it. -/
def primToNumber : JSVal → Except TypeErrorE Int
  | .numV n => .ok n
  | _ => .error ⟨"numeric conversion outside the model"⟩

/-- `String(wrapper)`: ToPrimitive with the string hint, then ToString. -/
def stringCoerce (p : ProxyObj) : Except TypeErrorE String :=
  match toPrimitiveProxy p .hintString with
  | .error e => .error e
  | .ok v => primToString v

/-- `Number(wrapper)`: ToPrimitive with the number hint, then ToNumber. -/
def numberCoerce (p : ProxyObj) : Except TypeErrorE Int :=
  match toPrimitiveProxy p .hintNumber with
  | .error e => .error e
  | .ok v => primToNumber v

/-- A method call `wrapper[k]()`: read the property through the `get` trap
and call the result with the wrapper as receiver. -/
def callProxyMethodKey (p : ProxyObj) (k : PropKey) : Except TypeErrorE JSVal :=
  callOnProxy (handlerGet p.body p.extension k)

/-- Whether an `Except` is the error (thrown) outcome. -/
def isErrorE : Except TypeErrorE α → Bool
  | .error _ => true
  | .ok _ => false

/-! ## Helper lemmas -/

/-- The native resolve never leaves a promise pending. -/
theorem rawResolve_ne_pending (st : PState τ) (it : LoadableR τ) :
    rawResolve st it ≠ .pending := by
  cases st <;> simp [rawResolve]

/-- The native reject never leaves a promise pending. -/
theorem rawReject_ne_pending (st : PState τ) (r : RejectReason τ) :
    rawReject st r ≠ .pending := by
  cases st <;> simp [rawReject]

/-- Invariant of the synchronous executor run: once the `fulfilled` flag is
set, the promise is settled (the wrappers set the flag only together with
a native settle call). -/
theorem runActs_fl_inv (acts : List (ExecAct τ)) (c : PCore τ)
    (hc : c.fl = true → c.st ≠ .pending) :
    (runActs acts c).1.fl = true → (runActs acts c).1.st ≠ .pending := by
  induction acts generalizing c with
  | nil => exact hc
  | cons a rest ih =>
    cases a with
    | callResolve it =>
      by_cases hr : it.status.ready = false
      · simpa [runActs, stepAct, resolveWrapped, hr] using hc
      · simpa [runActs, stepAct, resolveWrapped, hr] using
          ih ⟨rawResolve c.st it, true⟩ (fun _ => rawResolve_ne_pending c.st it)
    | callReject it =>
      cases he : it.status.error with
      | none => simpa [runActs, stepAct, rejectWrapped, he] using hc
      | some reason =>
        simpa [runActs, stepAct, rejectWrapped, he] using
          ih ⟨rawReject c.st (.loadErr (mkLoadError reason it)), true⟩
            (fun _ => rawReject_ne_pending c.st _)
    | throwE e => simpa [runActs, stepAct] using hc

/-- Invariant of the later (asynchronous) executor actions: starting from a
state that is not rejected-with-a-raw-throw, the promise can never become
rejected with a raw throw — the wrappers reject only with a `LoadError`,
and a throw in an asynchronous action goes to the host, not to the
promise. -/
theorem runAsyncActs_st_shape (acts : List (ExecAct τ)) (c : PCore τ)
    (hc : ∀ t, c.st ≠ .rejected (.thrown t)) :
    ∀ t, (runAsyncActs acts c).st ≠ .rejected (.thrown t) := by
  induction acts generalizing c with
  | nil => exact hc
  | cons a rest ih =>
    cases a with
    | callResolve it =>
      by_cases hr : it.status.ready = false
      · simpa [runAsyncActs, stepAct, resolveWrapped, hr] using hc
      · refine fun t => ?_
        have : ∀ t, (rawResolve c.st it) ≠ PState.rejected (.thrown t) := by
          intro t h
          cases hst : c.st <;> rw [hst] at h <;> simp [rawResolve] at h
          · exact hc t (by rw [hst, h])
        simpa [runAsyncActs, stepAct, resolveWrapped, hr] using
          ih ⟨rawResolve c.st it, true⟩ this t
    | callReject it =>
      cases he : it.status.error with
      | none => simpa [runAsyncActs, stepAct, rejectWrapped, he] using hc
      | some reason =>
        refine fun t => ?_
        have : ∀ t, (rawReject c.st (.loadErr (mkLoadError reason it)))
            ≠ PState.rejected (.thrown t) := by
          intro t h
          cases hst : c.st <;> rw [hst] at h <;> simp [rawReject] at h
          · exact hc t (by rw [hst, h])
        simpa [runAsyncActs, stepAct, rejectWrapped, he] using
          ih ⟨rawReject c.st (.loadErr (mkLoadError reason it)), true⟩ this t
    | throwE e => simpa [runAsyncActs, stepAct] using hc

/-- In a record whose keys are distinct, looking up an entry's key finds
that entry's value. -/
theorem assocLookup_self : ∀ (ps : List (PropKey × JSVal)),
    (ps.map Prod.fst).Nodup → ∀ kv ∈ ps, assocLookup ps kv.1 = some kv.2 := by
  intro ps
  induction ps with
  | nil => intro _ kv hkv; cases hkv
  | cons hd rest ih =>
    intro hnd kv hkv
    rw [List.map_cons, List.nodup_cons] at hnd
    cases hkv with
    | head => simp [assocLookup]
    | tail _ hmem =>
      have hne : hd.1 ≠ kv.1 := by
        intro h
        exact hnd.1 (h ▸ List.mem_map_of_mem Prod.fst hmem)
      simp only [assocLookup, if_neg hne]
      exact ih hnd.2 kv hmem

/-- Copying keys of a plain body through the proxy descriptors and `get`
trap reproduces the body's entries, when the extension holds none of
those keys. -/
theorem spread_plain_aux (ext : ExtObj) (ps : List (PropKey × JSVal)) :
    ∀ (qs : List (PropKey × JSVal)),
      (∀ k ∈ qs.map Prod.fst, assocLookup ext k = none) →
      (∀ kv ∈ qs, assocLookup ps kv.1 = some kv.2) →
      (qs.map Prod.fst).filterMap (fun k =>
        match handlerGOPD (.plainObj ps) ext k with
        | some d => if d.enumerable then some (k, handlerGet (.plainObj ps) ext k) else none
        | none => none) = qs := by
  intro qs
  induction qs with
  | nil => intro _ _; rfl
  | cons hd rest ih =>
    intro hdisj hself
    have hext : assocLookup ext hd.1 = none :=
      hdisj hd.1 (List.mem_map_of_mem Prod.fst (List.mem_cons_self hd rest))
    have hps : assocLookup ps hd.1 = some hd.2 :=
      hself hd (List.mem_cons_self hd rest)
    have hget : handlerGet (.plainObj ps) ext hd.1 = hd.2 := by
      simp only [handlerGet, hext, isObjNonNull, bodyHasProp, bodyOwnProps, bodyGetProp,
        hps, Option.isSome_some, Bool.true_and, protoMeths, protoLookup, Option.isSome_none,
        Bool.or_false, if_true, resolveBind, cannotProxy]
      split <;> simp
    have hgopd : handlerGOPD (.plainObj ps) ext hd.1
        = some ⟨hd.2, true, true⟩ := by
      simp [handlerGOPD, hext, isObjNonNull, bodyGOPD, hps]
    rw [List.map_cons, List.filterMap_cons]
    rw [hgopd]
    simp only [if_pos rfl]
    rw [ih (fun k hk => hdisj k (List.mem_cons_of_mem _ hk))
        (fun kv hkv => hself kv (List.mem_cons_of_mem _ hkv))]
    rw [hget]
    simp

/-! ## Claim theorems -/

/-- C4: for every Loadable `L`, `markReady(L, newItem?)` computes
`finalItem` as `newItem` when that is defined and `L`'s current item
otherwise; when `finalItem` is undefined it fails with a type error, and
otherwise it returns `rebuild(finalItem, {ready: true, loading: false,
error: null})` in the same representation as `L` (the `repr` field of the
result is `L`'s).  The extra conjuncts replay the `asReady` unit tests of
`src/unnamed/part_000` lines 251-287. -/
theorem claim_C4 :
    (∀ {τ : Type} (l : LoadableR τ) (newItem : Option τ),
        markReady l newItem =
          match (if newItem.isSome then newItem else l.item) with
          | none => .error ⟨markReadyMsg⟩
          | some x => .ok ⟨l.repr, some x, ⟨true, false, none⟩⟩)
    ∧ markReady (⟨.record, none, defaultStatusJ⟩ : LoadableR String) none
        = .error ⟨markReadyMsg⟩
    ∧ markReady (⟨.record, some "john", defaultStatusJ⟩ : LoadableR String) none
        = .ok ⟨.record, some "john", ⟨true, false, none⟩⟩
    ∧ markReady (⟨.record, some "john", defaultStatusJ⟩ : LoadableR String) (some "alice")
        = .ok ⟨.record, some "alice", ⟨true, false, none⟩⟩ := by
  refine ⟨fun l newItem => ?_, rfl, rfl, rfl⟩
  cases newItem <;> cases h : l.item <;> simp [markReady, LoadableR.rebuild, h]

/-- C5: `markLoading(L)` rebuilds with the current item and status
`{ready: item present, loading: true, error: null}` (clearing any previous
error), and `markFailed(L, reason)` rebuilds with the current item and
status `{ready: item present, loading: false, error: reason}` (preserving
the item); in both the new `ready` is exactly the presence of the current
item, and the representation is preserved.  The extra conjuncts replay the
`asLoading` / `asFailed` unit tests of `src/unnamed/part_000` lines
233-249 and 289-306 (an item present with `ready: false` becomes
`ready: true`). -/
theorem claim_C5 :
    (∀ {τ : Type} (l : LoadableR τ) (reason : ErrV),
        markLoading l = ⟨l.repr, l.item, ⟨l.item.isSome, true, none⟩⟩
        ∧ markFailed l reason = ⟨l.repr, l.item, ⟨l.item.isSome, false, some reason⟩⟩)
    ∧ markLoading (⟨.record, some "john", defaultStatusJ⟩ : LoadableR String)
        = ⟨.record, some "john", ⟨true, true, none⟩⟩
    ∧ markFailed (⟨.record, some "john", defaultStatusJ⟩ : LoadableR String) (.errObj "fail")
        = ⟨.record, some "john", ⟨true, false, some (.errObj "fail")⟩⟩ :=
  ⟨fun _ _ => ⟨rfl, rfl⟩, rfl, rfl⟩

/-- C6: the `LoadableProxy` constructor fails with a type error on a
boolean or a symbol item; it accepts an `undefined` item, yielding an
absent-item Loadable whose reserved access points report an undefined
item and the default status, and it accepts a `null` item, yielding a
present-but-null item.  The access-point reads go through the wrapper's
`get` trap. -/
theorem claim_C6 :
    (∀ (b : Bool) (patch : StatusPatch), isErrorE (LoadableProxy (.boolV b) patch) = true)
    ∧ (∀ (k : PropKey) (patch : StatusPatch), isErrorE (LoadableProxy (.symV k) patch) = true)
    ∧ LoadableProxy .undefV emptyPatch = .ok ⟨.plainObj [], mkLoadableExt .undefV defaultStatusJ⟩
    ∧ handlerGet (.plainObj []) (mkLoadableExt .undefV defaultStatusJ) .itemKey = .undefV
    ∧ handlerGet (.plainObj []) (mkLoadableExt .undefV defaultStatusJ) .statusKey
        = statusToObj ⟨false, false, none⟩
    ∧ LoadableProxy .nullV emptyPatch = .ok ⟨.nullV, mkLoadableExt .nullV defaultStatusJ⟩
    ∧ handlerGet .nullV (mkLoadableExt .nullV defaultStatusJ) .itemKey = .nullV :=
  ⟨fun _ _ => rfl, fun _ _ => rfl, rfl, rfl, rfl, rfl, rfl⟩

/-- C7 counterexample: the claim asserts that checking the wrapper's
extensibility behaves without error while reporting it as non-extensible;
in fact `Object.isExtensible(wrapper)` throws a `TypeError`, because the
`isExtensible` trap answers `false` (ProxyWrapper.ts line 151) while the
proxy target `{body, extension}` (line 198) is an ordinary extensible
object, violating the ECMA-262 proxy invariant that the trap result match
the target's extensibility. -/
theorem claim_C7_counterexample :
    isExtensibleOnProxy = .error ⟨"proxy must report same extensibility as target"⟩ := rfl

/-- C7 amended: every mutation attempt on a delegation wrapper —
assigning a property, deleting a property, defining a new property, or
changing the prototype — is rejected with a type error, so the wrapper is
immutable; checking its extensibility also throws a type error (rather
than reporting non-extensibility without error), since the trap's `false`
answer contradicts the extensible target. -/
theorem claim_C7_amended :
    assignOnProxy = .error ⟨"Unable to modify object"⟩
    ∧ definePropertyOnProxy = .error ⟨"Unable to modify object"⟩
    ∧ deletePropertyOnProxy = .error ⟨"Unable to modify object"⟩
    ∧ setPrototypeOfProxy = .error ⟨"Cannot set prototype of immutable object"⟩
    ∧ isErrorE isExtensibleOnProxy = true :=
  ⟨rfl, rfl, rfl, rfl, rfl⟩

/-- C10: a promise derived from a `LoadablePromise` by continuation
chaining is a plain base `Promise` — `LoadablePromise` sets its
`[Symbol.species]` to the base `Promise` (part_001 line 47) — so the
derived promise has no `subscribe` method and no `item` property.  (The
statement holds for any receiver class, since the base class's species is
itself.) -/
theorem claim_C10 :
    ∀ (τ : Type) (p : GenPromise τ) (st : PState τ),
      (thenDerived p st).cls = .base
      ∧ hasSubscribeMethod (thenDerived p st) = false
      ∧ (thenDerived p st).itemProp = none := by
  intro τ p st
  cases p with
  | mk cls state itemProp => cases cls <;> exact ⟨rfl, rfl, rfl⟩

/-- C8: for every delegation wrapper `wrap(value, extension)`: reading a
key that is an own property of the extension goes to the extension's
entry for it — for every body, so a same-named field of the body never
wins — and a non-function entry is returned exactly as stored (a
function entry is at most bound to the body); the ownership listing never
depends on the extension (its keys are excluded); an extension-owned key
is reported non-enumerable; and spreading a wrapper over a plain object
whose keys the extension does not share yields exactly the object's own
fields. -/
theorem claim_C8 :
    (∀ (body : JSVal) (ext : ExtObj) (k : PropKey) (v : JSVal),
        assocLookup ext k = some v → handlerGet body ext k = resolveBind body v)
    ∧ (∀ (body v : JSVal), isFn v = false → resolveBind body v = v)
    ∧ (∀ (body : JSVal) (ext ext' : ExtObj), handlerOwnKeys body ext = handlerOwnKeys body ext')
    ∧ (∀ (body : JSVal) (ext : ExtObj) (k : PropKey) (v : JSVal),
        assocLookup ext k = some v → handlerGOPD body ext k = some ⟨v, false, true⟩)
    ∧ (∀ (ps : List (PropKey × JSVal)) (ext : ExtObj),
        (ps.map Prod.fst).Nodup →
        (∀ k ∈ ps.map Prod.fst, assocLookup ext k = none) →
        spreadProxy (.plainObj ps) ext = ps) := by
  refine ⟨?_, ?_, ?_, ?_, ?_⟩
  · intro body ext k v h
    simp [handlerGet, h]
  · intro body v h
    simp [resolveBind, h]
  · intro body ext ext'
    rfl
  · intro body ext k v h
    simp [handlerGOPD, h]
  · intro ps ext hnd hdisj
    have hself := assocLookup_self ps hnd
    have hkeys : handlerOwnKeys (.plainObj ps) ext = ps.map Prod.fst := rfl
    simp only [spreadProxy, hkeys]
    exact spread_plain_aux ext ps ps hdisj hself

/-- C8 witness: concrete runs of the parts of `claim_C8` — an extension
entry shadowing a same-named body field, the extension-independent key
listing, the non-enumerable extension descriptor, and a spread that
reproduces exactly the body's own fields. -/
theorem claim_C8_witness :
    handlerGet (.plainObj [(.s "x", .numV 1)])
        [(.s "x", .strV "fromExtension"), (.itemKey, .numV 7)] (.s "x")
      = .strV "fromExtension"
    ∧ resolveBind (.plainObj []) (.numV 5) = .numV 5
    ∧ handlerOwnKeys (.plainObj [(.s "x", .numV 1)]) [(.itemKey, .numV 7)]
      = handlerOwnKeys (.plainObj [(.s "x", .numV 1)]) []
    ∧ handlerGOPD (.plainObj [(.s "x", .numV 1)])
        [(.s "x", .strV "fromExtension"), (.itemKey, .numV 7)] (.s "x")
      = some ⟨.strV "fromExtension", false, true⟩
    ∧ spreadProxy (.plainObj [(.s "x", .numV 1)]) [(.itemKey, .numV 7)]
      = [(.s "x", .numV 1)] :=
  ⟨claim_C8.1 (.plainObj [(.s "x", .numV 1)])
      [(.s "x", .strV "fromExtension"), (.itemKey, .numV 7)] (.s "x")
      (.strV "fromExtension") rfl,
   claim_C8.2.1 (.plainObj []) (.numV 5) rfl,
   claim_C8.2.2.1 (.plainObj [(.s "x", .numV 1)]) [(.itemKey, .numV 7)] [],
   claim_C8.2.2.2.1 (.plainObj [(.s "x", .numV 1)])
      [(.s "x", .strV "fromExtension"), (.itemKey, .numV 7)] (.s "x")
      (.strV "fromExtension") rfl,
   claim_C8.2.2.2.2 [(.s "x", .numV 1)] [(.itemKey, .numV 7)] (by simp)
      (by intro k hk; simp at hk; subst hk; rfl)⟩

/-- C9: a `LoadableProxy` over the primitive string `"foo"` coerces
(`String(...)`) and stringifies (`.toString()`) to `"foo"`; one over the
primitive number `42` coerces (`Number(...)`) to `42`; and one over any
`Date` answers `getFullYear` identically to the unwrapped date — the
constructor boxes the primitives and the `get` trap binds the built-in
String / Number / Date / RegExp methods to the underlying body. -/
theorem claim_C9 :
    (LoadableProxy (.strV "foo") emptyPatch).bind stringCoerce = .ok "foo"
    ∧ (LoadableProxy (.strV "foo") emptyPatch).bind
        (fun p => callProxyMethodKey p (.s "toString")) = .ok (.strV "foo")
    ∧ (LoadableProxy (.numV 42) emptyPatch).bind numberCoerce = .ok 42
    ∧ ∀ (y mo d : Int),
        (LoadableProxy (.dateV y mo d) emptyPatch).bind
            (fun p => callProxyMethodKey p (.s "getFullYear"))
          = applyMeth .dateGetFullYear (.dateV y mo d) :=
  ⟨rfl, rfl, rfl, fun _ _ _ => rfl⟩

/-- C1: for a completion-protocol object built from a loading item that
has not yet settled when `subscribe` is called, and whose operation does
settle, the subscriber receives exactly two calls: first, synchronously,
the original loading item (the head of the delivery list is the
synchronous part of `subscribeCalls`), and second, exactly once, the
terminal item — the resolved item on success, the item recovered from the
`LoadError` on failure — with the loading-phase delivery strictly before
the terminal one; and `subscribe` returns the protocol object itself. -/
theorem claim_C1 {τ : Type} (item : LoadableR τ) (syncActs asyncActs : List (ExecAct τ))
    (p : LPromise τ)
    (hload : item.status.loading = true)
    (hcons : constructLP syncActs item = .ok p)
    (hpend : p.core.st = .pending)
    (hsettle : (runAsyncActs asyncActs p.core).st ≠ .pending) :
    (∃ t : LoadableR τ,
        termNotif (runAsyncActs asyncActs p.core).st = [some t]
        ∧ subscribeCalls p asyncActs = [some item, some t])
    ∧ subscribeReturn p = p := by
  refine ⟨?_, rfl⟩
  simp only [constructLP, hload] at hcons
  rcases hre : runActs syncActs (⟨.pending, false⟩ : PCore τ) with ⟨c, e⟩
  rw [hre] at hcons
  cases e with
  | some e' =>
    simp at hcons
    rw [← hcons] at hpend
    exact absurd hpend (rawReject_ne_pending c.st (.thrown e'))
  | none =>
    simp at hcons
    subst hcons
    have hcst : c.st = .pending := hpend
    have hinv := runActs_fl_inv syncActs (⟨.pending, false⟩ : PCore τ)
      (fun h => Bool.noConfusion h)
    rw [hre] at hinv
    have hfl : c.fl = false := by
      cases hcf : c.fl
      · rfl
      · exact absurd hcst (hinv hcf)
    have hshape := runAsyncActs_st_shape asyncActs (⟨c, item⟩ : LPromise τ).core
      (by intro t h; rw [hcst] at h; exact PState.noConfusion h)
    cases hfc : (runAsyncActs asyncActs (⟨c, item⟩ : LPromise τ).core).st with
    | pending => exact absurd hfc hsettle
    | fulfilled it =>
      exact ⟨it, rfl, by simp [subscribeCalls, hfc, hfl, termNotif]⟩
    | rejected r =>
      cases r with
      | loadErr le =>
        exact ⟨le.item, rfl, by simp [subscribeCalls, hfc, hfl, termNotif]⟩
      | thrown t => exact absurd hfc (hshape t)

/-- C1 witness: a concrete protocol object over a loading item with no
synchronous settlement and a later resolve; the subscriber receives the
loading item and then the resolved item, in that order, and `subscribe`
returns the object. -/
theorem claim_C1_witness :
    (∃ t : LoadableR Unit,
        termNotif (runAsyncActs [ExecAct.callResolve ⟨.record, some (), ⟨true, false, none⟩⟩]
            (⟨⟨.pending, false⟩, ⟨.record, none, ⟨false, true, none⟩⟩⟩ : LPromise Unit).core).st
          = [some t]
        ∧ subscribeCalls (⟨⟨.pending, false⟩, ⟨.record, none, ⟨false, true, none⟩⟩⟩ : LPromise Unit)
            [ExecAct.callResolve ⟨.record, some (), ⟨true, false, none⟩⟩]
          = [some ⟨.record, none, ⟨false, true, none⟩⟩, some t])
    ∧ subscribeReturn (⟨⟨.pending, false⟩, ⟨.record, none, ⟨false, true, none⟩⟩⟩ : LPromise Unit)
      = ⟨⟨.pending, false⟩, ⟨.record, none, ⟨false, true, none⟩⟩⟩ :=
  claim_C1 ⟨.record, none, ⟨false, true, none⟩⟩ []
    [ExecAct.callResolve ⟨.record, some (), ⟨true, false, none⟩⟩]
    ⟨⟨.pending, false⟩, ⟨.record, none, ⟨false, true, none⟩⟩⟩
    rfl rfl rfl (by decide)

/-- C2 counterexample: constructing a `LoadablePromise` from a non-loading
Loadable does not throw at the call site.  The loading check does raise a
`TypeError`, but it does so inside the executor passed to the base
`Promise` constructor, which catches the abrupt completion and rejects
the promise (ECMA-262 Promise ( executor ), step 10); construction
completes normally (the `Except.ok`), returning a promise that is already
rejected with the `TypeError` — precisely the "merely turned into a
rejected promise" outcome the claim excludes. -/
theorem claim_C2_counterexample :
    constructLP (τ := Unit) [] ⟨.record, none, ⟨false, false, none⟩⟩
      = .ok ⟨⟨.rejected (.thrown (.typeErr expectedLoadingMsg)), false⟩,
             ⟨.record, none, ⟨false, false, none⟩⟩⟩ := rfl

/-- C2 amended: constructing a completion-protocol object from a Loadable
whose status has `loading = false` yields — without throwing at the call
site, and without ever running the user executor (the result is the same
for every action list) — a promise already rejected with the loading
`TypeError`, with the `fulfilled` flag unset and the item reference still
assigned. -/
theorem claim_C2_amended {τ : Type} (acts : List (ExecAct τ)) (item : LoadableR τ)
    (h : item.status.loading = false) :
    constructLP acts item
      = .ok ⟨⟨.rejected (.thrown (.typeErr expectedLoadingMsg)), false⟩, item⟩ := by
  simp [constructLP, h]

/-- C2 amended witness: a concrete non-loading Loadable, with an executor
that would throw if it ran; the constructor still returns the
`TypeError`-rejected promise. -/
theorem claim_C2_amended_witness :
    constructLP (τ := Unit) [ExecAct.throwE (.rawTag 0)]
        ⟨.proxy, some (), ⟨true, false, some (.errObj "x")⟩⟩
      = .ok ⟨⟨.rejected (.thrown (.typeErr expectedLoadingMsg)), false⟩,
             ⟨.proxy, some (), ⟨true, false, some (.errObj "x")⟩⟩⟩ :=
  claim_C2_amended [ExecAct.throwE (.rawTag 0)]
    ⟨.proxy, some (), ⟨true, false, some (.errObj "x")⟩⟩ rfl

/-- C3 counterexample: a rejection delivered to consumers that is not a
`LoadError`.  Rejecting with a terminal item whose status `error` is null
does throw a `TypeError` (the first two clauses of the claim), but that
`TypeError` escapes the executor, is caught by the base `Promise`
constructor, and becomes the promise's rejection reason — so consumers
observe a raw `TypeError`, not a `LoadError` carrying a terminal item,
refuting the claim's universal clause. -/
theorem claim_C3_counterexample :
    constructLP (τ := Unit) [ExecAct.callReject ⟨.record, some (), ⟨true, false, none⟩⟩]
        ⟨.record, none, ⟨false, true, none⟩⟩
      = .ok ⟨⟨.rejected (.thrown (.typeErr expectedFailedMsg)), false⟩,
             ⟨.record, none, ⟨false, true, none⟩⟩⟩ := rfl

/-- C3 amended: resolving with a terminal item whose status lacks
`ready = true` throws a `TypeError` from the resolve wrapper; rejecting
with a terminal item whose status `error` is null throws a `TypeError`
from the reject wrapper; and every rejection produced through a
successful reject call is a `LoadError` carrying the terminal (failed)
item — while rejections arising from values thrown by the executor or
from the wrappers' own `TypeError`s reach consumers as the raw error
instead of a `LoadError`. -/
theorem claim_C3_amended {τ : Type} (c : PCore τ) (it : LoadableR τ) :
    (it.status.ready = false → resolveWrapped c it = .error (.typeErr expectedReadyMsg))
    ∧ (it.status.error = none → rejectWrapped c it = .error (.typeErr expectedFailedMsg))
    ∧ (∀ e, it.status.error = some e →
        rejectWrapped c it = .ok ⟨rawReject c.st (.loadErr ⟨loadErrorMessage e, it⟩), true⟩) := by
  refine ⟨fun h => ?_, fun h => ?_, fun e h => ?_⟩
  · simp [resolveWrapped, h]
  · simp [rejectWrapped, h]
  · simp [rejectWrapped, h, mkLoadError]

/-- C3 amended witness: concrete wrapper calls — a resolve with a
non-ready item and a reject with a null-error item both throw their
`TypeError`s, and a reject with an errored item settles the promise with
the `LoadError` carrying that item. -/
theorem claim_C3_amended_witness :
    resolveWrapped (τ := Unit) ⟨.pending, false⟩ ⟨.record, none, ⟨false, true, none⟩⟩
      = .error (.typeErr expectedReadyMsg)
    ∧ rejectWrapped (τ := Unit) ⟨.pending, false⟩ ⟨.record, none, ⟨false, true, none⟩⟩
      = .error (.typeErr expectedFailedMsg)
    ∧ rejectWrapped (τ := Unit) ⟨.pending, false⟩
        ⟨.record, some (), ⟨true, false, some (.errObj "boom")⟩⟩
      = .ok ⟨.rejected (.loadErr ⟨loadErrorMessage (.errObj "boom"),
              ⟨.record, some (), ⟨true, false, some (.errObj "boom")⟩⟩⟩), true⟩ :=
  ⟨(claim_C3_amended ⟨.pending, false⟩ ⟨.record, none, ⟨false, true, none⟩⟩).1 rfl,
   (claim_C3_amended ⟨.pending, false⟩ ⟨.record, none, ⟨false, true, none⟩⟩).2.1 rfl,
   (claim_C3_amended ⟨.pending, false⟩
      ⟨.record, some (), ⟨true, false, some (.errObj "boom")⟩⟩).2.2 (.errObj "boom") rfl⟩
